import Mathlib

/-!
Verification of the document-management backend's text-extraction and
AI-query logic (src/api/utils.py and src/api/views.py), via a shallow
embedding: Python strings become Lean `String`s, raw file bytes become
`List Nat`, external parsing libraries (PyPDF2, python-docx) become
oracle fields of the file object carrying either a parse result or the
message of the exception they raise, and Python exceptions become
`Except String`.
-/

deriving instance DecidableEq for Except

/-! ## Python string primitives -/

/-- Whitespace as recognised by Python's `str.strip`, modelled on the ASCII
range (space, tab, newline, carriage return, vertical tab, form feed);
the exotic Unicode space characters are not distinguished, no string in
this development contains one. -/
def pyIsSpace (c : Char) : Bool :=
  c = ' ' || c = '\t' || c = '\n' || c = '\r' || c.toNat = 0x0B || c.toNat = 0x0C

def lstripL (l : List Char) : List Char := l.dropWhile pyIsSpace

def rstripL (l : List Char) : List Char := (l.reverse.dropWhile pyIsSpace).reverse

def stripL (l : List Char) : List Char := lstripL (rstripL l)

/-- Python `str.strip()`. -/
def pyStrip (s : String) : String := String.mk (stripL s.data)

/-- Python `str.lower()`, modelled on the ASCII range (the only characters
whose case matters here are in file-name extensions). -/
def lowerChar (c : Char) : Char :=
  if 'A' ≤ c && c ≤ 'Z' then Char.ofNat (c.toNat + 32) else c

def pyLower (s : String) : String := String.mk (s.data.map lowerChar)

/-- Python `str.endswith`. -/
def strEndsWith (s suf : String) : Bool :=
  suf.data.reverse.isPrefixOf s.data.reverse

/-- Python `str.startswith`. -/
def strStartsWith (s pre : String) : Bool :=
  pre.data.isPrefixOf s.data

/-! ## Byte decoders

`bytes.decode('latin-1', errors='ignore')` maps every byte to the Unicode
code point of the same value and cannot fail.  `bytes.decode('utf-8',
errors='ignore')` drops each maximal invalid subpart;
`errors='replace'` substitutes U+FFFD for each such subpart (the latter
is needed only to state what the spec's words would mean). -/

def decodeLatin1 (bs : List Nat) : String := String.mk (bs.map Char.ofNat)

/-- A UTF-8 continuation byte. -/
def utf8Cont (b : Nat) : Bool := 0x80 ≤ b && b ≤ 0xBF

/-- Valid second byte after a three-byte lead (excludes overlong forms and
surrogate code points, as CPython does). -/
def utf8Cont3 (b1 b2 : Nat) : Bool :=
  if b1 = 0xE0 then 0xA0 ≤ b2 && b2 ≤ 0xBF
  else if b1 = 0xED then 0x80 ≤ b2 && b2 ≤ 0x9F
  else utf8Cont b2

/-- Valid second byte after a four-byte lead (excludes overlong forms and
code points above U+10FFFF). -/
def utf8Cont4 (b1 b2 : Nat) : Bool :=
  if b1 = 0xF0 then 0x90 ≤ b2 && b2 ≤ 0xBF
  else if b1 = 0xF4 then 0x80 ≤ b2 && b2 ≤ 0x8F
  else utf8Cont b2

/-- Fuel-indexed UTF-8 decoder; `repl` is emitted for each maximal invalid
subpart (empty for `errors='ignore'`, U+FFFD for `errors='replace'`).
The fuel is only a termination device: each step consumes at least one
byte, so `length + 1` fuel always suffices. -/
def utf8DecodeAux (repl : List Char) : Nat → List Nat → List Char
  | 0, _ => []
  | _ + 1, [] => []
  | fuel + 1, b1 :: rest =>
    if b1 < 0x80 then Char.ofNat b1 :: utf8DecodeAux repl fuel rest
    else if b1 < 0xC2 then repl ++ utf8DecodeAux repl fuel rest
    else if b1 ≤ 0xDF then
      match rest with
      | [] => repl
      | b2 :: rest2 =>
        if utf8Cont b2 then
          Char.ofNat ((b1 - 0xC0) * 0x40 + (b2 - 0x80)) :: utf8DecodeAux repl fuel rest2
        else repl ++ utf8DecodeAux repl fuel (b2 :: rest2)
    else if b1 ≤ 0xEF then
      match rest with
      | [] => repl
      | b2 :: rest2 =>
        if utf8Cont3 b1 b2 then
          match rest2 with
          | [] => repl
          | b3 :: rest3 =>
            if utf8Cont b3 then
              Char.ofNat (((b1 - 0xE0) * 0x40 + (b2 - 0x80)) * 0x40 + (b3 - 0x80)) ::
                utf8DecodeAux repl fuel rest3
            else repl ++ utf8DecodeAux repl fuel (b3 :: rest3)
        else repl ++ utf8DecodeAux repl fuel (b2 :: rest2)
    else if b1 ≤ 0xF4 then
      match rest with
      | [] => repl
      | b2 :: rest2 =>
        if utf8Cont4 b1 b2 then
          match rest2 with
          | [] => repl
          | b3 :: rest3 =>
            if utf8Cont b3 then
              match rest3 with
              | [] => repl
              | b4 :: rest4 =>
                if utf8Cont b4 then
                  Char.ofNat ((((b1 - 0xF0) * 0x40 + (b2 - 0x80)) * 0x40 + (b3 - 0x80)) * 0x40
                      + (b4 - 0x80)) :: utf8DecodeAux repl fuel rest4
                else repl ++ utf8DecodeAux repl fuel (b4 :: rest4)
            else repl ++ utf8DecodeAux repl fuel (b3 :: rest3)
        else repl ++ utf8DecodeAux repl fuel (b2 :: rest2)
    else repl ++ utf8DecodeAux repl fuel rest

/-- `bytes.decode('utf-8', errors='ignore')`. -/
def decodeUtf8Ignore (bs : List Nat) : String :=
  String.mk (utf8DecodeAux [] (bs.length + 1) bs)

/-- `bytes.decode('utf-8', errors='replace')` (used only to formalise the
spec's "replacing undecodable bytes" wording). -/
def decodeUtf8Replace (bs : List Nat) : String :=
  String.mk (utf8DecodeAux [Char.ofNat 0xFFFD] (bs.length + 1) bs)

/-! ## The uploaded file object

`bytes` is what `file_obj.read()` yields (the `seek(0)` calls make reads
start from the beginning).  `name` is the `name` attribute when present
(`getattr(file_obj, 'name', 'unknown_file_type')`), `content_type` the
`content_type` attribute when present.  `pdfParse` models
`PyPDF2.PdfReader(file_obj)` followed by `page.extract_text()` on each
page: either the list of per-page results (each possibly `None` or empty)
or the message of the exception the library raises; `docxParse` likewise
models `docx.Document(file_obj)` and `para.text` over its paragraphs. -/
structure FileObj where
  bytes : List Nat
  name : Option String
  content_type : Option String
  pdfParse : Except String (List (Option String))
  docxParse : Except String (List String)

def fileNameOf (fo : FileObj) : String := fo.name.getD "unknown_file_type"

def docxMimeStr : String :=
  "application/vnd.openxmlformats-officedocument.wordprocessingml.document"

/-- `mimetypes.guess_type`, modelled for the extensions this code
distinguishes (`.pdf`, `.docx`, `.doc`, `.txt`); a name with any other
extension is outside the model and guesses `none`.  Like Python's table,
the lookup is case-insensitive. -/
def mimeGuess (fn : String) : Option String :=
  if strEndsWith (pyLower fn) ".pdf" then some "application/pdf"
  else if strEndsWith (pyLower fn) ".docx" then some docxMimeStr
  else if strEndsWith (pyLower fn) ".doc" then some "application/msword"
  else if strEndsWith (pyLower fn) ".txt" then some "text/plain"
  else none

/-- `mime_type, _ = mimetypes.guess_type(file_name)` followed by the
fallback `if not mime_type and hasattr(file_obj, 'content_type')`. -/
def resolveMime (fo : FileObj) : Option String :=
  match mimeGuess (fileNameOf fo) with
  | some m => some m
  | none => fo.content_type

/-! ## extract_text_from_file (src/api/utils.py) -/

/-- One iteration of the PDF loop: `page_text = page.extract_text()`,
then `if page_text: text += page_text + "\n"`. -/
def pdfStep (acc : String) (p : Option String) : String :=
  match p with
  | some t => if t = "" then acc else acc ++ t ++ "\n"
  | none => acc

/-- The PDF loop: `for page in reader.pages: ...`, starting from `text = ""`. -/
def pdfConcat (pages : List (Option String)) : String :=
  pages.foldl pdfStep ""

/-- The DOCX loop: `for para in doc.paragraphs: text += para.text + "\n"`. -/
def docxConcat (paras : List String) : String :=
  paras.foldl (fun acc t => acc ++ t ++ "\n") ""

/-- Python `str.isprintable`, modelled on the Latin-1 range (printable
ASCII, plus non-ASCII letters; C0/C1 controls, DEL, NBSP and soft hyphen
are not printable).  No claim depends on higher code points. -/
def pyIsPrintable (c : Char) : Bool :=
  (0x20 ≤ c.toNat && c.toNat ≤ 0x7E) || (0xA1 ≤ c.toNat && c.toNat ≠ 0xAD)

/-- `sum(1 for char in possible_text[:500] if not char.isprintable() and char not in '\n\r\t')`. -/
def nonPrintableCount (s : String) : Nat :=
  (s.data.take 500).countP (fun c => !pyIsPrintable c && !(c = '\n' || c = '\r' || c = '\t'))

/-- `f"{mime_type or 'unknown'}"`. -/
def mimeOrUnknown : Option String → String
  | none => "unknown"
  | some "" => "unknown"
  | some s => s

/-- What the branch dispatch (lines 24-55 of utils.py) leaves in `text`:
either plain extracted text or one of the diagnostic strings produced by
an inner `except`/`else`. -/
inductive BranchRes where
  | text (s : String)
  | unsupContent
  | unsupMime (m : Option String)
  | docError (e : String)
deriving DecidableEq

/-- `file_obj.read().decode('latin-1', errors='ignore')` wrapped in its
`try`: the decode is total (every byte is a latin-1 code point, and
`errors='ignore'` suppresses any error besides), so the `except e_doc`
arm is unreachable. -/
def decodeLatin1E (bs : List Nat) : Except String String := .ok (decodeLatin1 bs)

/-- The fallback branch's `file_obj.read().decode('utf-8', errors='ignore')`
wrapped in its `try`: total for the same reason. -/
def decodeUtf8IgnoreE (bs : List Nat) : Except String String := .ok (decodeUtf8Ignore bs)

/-- Lines 24-55 of utils.py: the `if/elif/else` chain inside the `try`.
An `Except.error` is an exception escaping to the outer handler. -/
def branchText (fo : FileObj) : Except String BranchRes :=
  if resolveMime fo == some "application/pdf"
      || strEndsWith (pyLower (fileNameOf fo)) ".pdf" then
    match fo.pdfParse with
    | .error e => .error e
    | .ok pages => .ok (.text (pdfConcat pages))
  else if resolveMime fo == some docxMimeStr || resolveMime fo == some "application/msword"
      || strEndsWith (pyLower (fileNameOf fo)) ".docx"
      || strEndsWith (pyLower (fileNameOf fo)) ".doc" then
    if strEndsWith (pyLower (fileNameOf fo)) ".docx" then
      match fo.docxParse with
      | .error e => .error e
      | .ok paras => .ok (.text (docxConcat paras))
    else
      match decodeLatin1E fo.bytes with
      | .ok t => .ok (.text t)
      | .error e => .ok (.docError e)
  else if resolveMime fo == some "text/plain"
      || strEndsWith (pyLower (fileNameOf fo)) ".txt" then
    .ok (.text (decodeUtf8Ignore fo.bytes))
  else
    match decodeUtf8IgnoreE fo.bytes with
    | .ok possible =>
      if nonPrintableCount possible < 50 then .ok (.text possible)
      else .ok .unsupContent
    | .error _ => .ok (.unsupMime (resolveMime fo))

def noTextMsg : String := "No text content could be extracted from the document."

def unsupContentMsg : String :=
  "Unsupported file type or content not recognized as plain text."

def extractErrPre : String := "An error occurred during text extraction"

/-- The string each branch outcome leaves in the `text` variable. -/
def renderBranch : BranchRes → String
  | .text s => s
  | .unsupContent => unsupContentMsg
  | .unsupMime m => "Unsupported file type (" ++ mimeOrUnknown m ++ "). Could not decode as text."
  | .docError e => "Could not reliably extract text from .doc file: " ++ e ++ "\n"

/-- The possible values of `text` just before `return text.strip()`,
tagged by which statement produced them. -/
inductive Outcome where
  | text (s : String)
  | noText
  | unsupContent
  | unsupMime (m : Option String)
  | docError (e : String)
  | extractErr (e : String)
deriving DecidableEq

def outcomeOfBranch : BranchRes → Outcome
  | .text s => .text s
  | .unsupContent => .unsupContent
  | .unsupMime m => .unsupMime m
  | .docError e => .docError e

/-- utils.py lines 23-62: the branch dispatch, then
`if not text.strip(): text = "No text content..."` (line 57, inside the
`try`, hence skipped when an exception was raised), with the outer
`except` converting any exception into the extraction-error string. -/
def extractOutcome (fo : FileObj) : Outcome :=
  match branchText fo with
  | .error e => .extractErr e
  | .ok br => if pyStrip (renderBranch br) = "" then .noText else outcomeOfBranch br

def renderOutcome : Outcome → String
  | .text s => s
  | .noText => noTextMsg
  | .unsupContent => renderBranch .unsupContent
  | .unsupMime m => renderBranch (.unsupMime m)
  | .docError e => renderBranch (.docError e)
  | .extractErr e => extractErrPre ++ ": " ++ e

/-- `extract_text_from_file` (utils.py lines 5-67): total by construction
— every exception of the body is caught — ending in `return text.strip()`. -/
def extract_text_from_file (fo : FileObj) : String :=
  pyStrip (renderOutcome (extractOutcome fo))

/-- The post-processing the code applies to a branch's text: the line-57
empty check followed by the final `strip` (`pyStrip noTextMsg = noTextMsg`). -/
def postText (t : String) : String :=
  if pyStrip t = "" then noTextMsg else pyStrip t

/-! ## ask_ai (src/api/views.py, DocumentViewSet.ask_ai)

The question is `request.data.get('question')`, modelled as
`Option String` (`none` for an absent or null field; the
`isinstance(question, str)` guard for non-string JSON values is outside
the string model).  The Gemini response object is modelled as data:
a field is `none` when `hasattr` is false.  The external call
(`genai.configure` … `model.generate_content(prompt)`) is an oracle
`svc` from the prompt to either a response or the raised exception's
message. -/

/-- A member of `ai_response.parts`; `text` is `none` when the part has
no `text` attribute. -/
structure GenPart where
  text : Option String

structure PromptFeedback where
  block_reason : String
  block_reason_message : String

structure GenAiResponse where
  text : Option String
  parts : Option (List GenPart)
  prompt_feedback : Option PromptFeedback

def defaultAnswerMsg : String := "The AI model did not return a text response."

def blockedPre : String := "The AI model blocked the response. Reason: "

/-- views.py lines 234-244: normalise the model response into `answer_text`. -/
def normalizeResponse (r : GenAiResponse) : String :=
  let answer :=
    match r.text with
    | some t =>
      if t ≠ "" then pyStrip t
      else
        match r.parts with
        | some ps =>
          let ts := ps.filterMap (fun p => p.text)
          if ts ≠ [] then pyStrip (String.join ts) else defaultAnswerMsg
        | none => defaultAnswerMsg
    | none =>
      match r.parts with
      | some ps =>
        let ts := ps.filterMap (fun p => p.text)
        if ts ≠ [] then pyStrip (String.join ts) else defaultAnswerMsg
      | none => defaultAnswerMsg
  if answer = "" then
    match r.prompt_feedback with
    | some fb =>
      if fb.block_reason ≠ "" then
        blockedPre ++ (if fb.block_reason_message ≠ "" then fb.block_reason_message
                       else fb.block_reason)
      else answer
    | none => answer
  else answer

/-- views.py lines 190-196: `unsuitable_text_messages`. -/
def unsuitableTextMessages : List String :=
  [ noTextMsg,
    unsupContentMsg,
    "Unsupported file type (unknown). Could not decode as text.",
    extractErrPre,
    "Could not reliably extract text from .doc file" ]

/-- views.py lines 197-199: the extracted text is rejected when falsy
(null or empty), an exact member of the fixed list, or an extension of
one of the two fixed error prefixes. -/
def textUnsuitable (t : Option String) : Bool :=
  match t with
  | none => true
  | some s =>
    s = "" || s ∈ unsuitableTextMessages ||
      strStartsWith s extractErrPre || strStartsWith s "Unsupported file type"

/-- views.py lines 216-230: the prompt f-string. -/
def buildPrompt (text question : String) : String :=
  "You are an AI assistant for a Document Management Portal.\nYour sole task is to answer the user's question based *strictly and exclusively* on the content of the document text provided below.\n- If the answer is found in the document, provide the answer directly.\n- If the answer cannot be found in the document text, you MUST respond with the exact phrase: \"The answer to your question cannot be found in the provided document.\"\n- Do NOT use any external knowledge, make assumptions, or infer information beyond what is explicitly stated in the document text.\n- Do NOT add any conversational fluff or apologies if the answer is not found.\n\nProvided Document Text:\n---\n"
    ++ text ++ "\n---\n\nUser's Question: " ++ question ++ "\n\nAnswer:"

/-- What a run of `ask_ai` produces: the HTTP status of the response,
whether the external AI service was invoked, and the `answer` field when
the request succeeded. -/
structure AskOutcome where
  status : Nat
  aiInvoked : Bool
  answer : Option String
deriving DecidableEq

/-- `not question or not isinstance(question, str) or not question.strip()`
(views.py line 186); `none` covers an absent or null field. -/
def questionInvalid : Option String → Bool
  | none => true
  | some q => pyStrip q = ""

/-- `if not gemini_api_key` (views.py line 207): `os.getenv` returned
`None` or an empty string. -/
def apiKeyMissing : Option String → Bool
  | none => true
  | some k => k = ""

/-- views.py lines 177-256.  `extractedText` is the document's stored
`extracted_text`, `apiKey` is `os.getenv("GEMINI_API_KEY")`, and `svc`
is the external call (an `Except.error` is an exception caught by the
outer handler; it can only be raised once the call is underway). -/
def ask_ai (extractedText : Option String) (question : Option String)
    (apiKey : Option String) (svc : String → Except String GenAiResponse) : AskOutcome :=
  if questionInvalid question then { status := 400, aiInvoked := false, answer := none }
  else if textUnsuitable extractedText then
    { status := 400, aiInvoked := false, answer := none }
  else if apiKeyMissing apiKey then { status := 500, aiInvoked := false, answer := none }
  else
    match svc (buildPrompt (extractedText.getD "") (question.getD "")) with
    | .error _ => { status := 500, aiInvoked := true, answer := none }
    | .ok r => { status := 200, aiInvoked := true, answer := some (normalizeResponse r) }

/-! ## perform_update and perform_destroy (src/api/views.py)

The Django specifics are modelled explicitly: a stored record carries an
optional file path; `serializer.validated_data` either lacks the `'file'`
key, maps it to `None` (clearing the file), or maps it to a new upload,
for which the storage assigns a path.  The observable side effects are a
trace of events: the durable save / record deletion, each `os.remove`
attempt, and the `except OSError` log. -/

structure StoredDoc where
  filePath : Option String
  extracted_text : Option String
deriving DecidableEq

/-- The `'file'` entry of `serializer.validated_data`. -/
inductive FilePatch where
  | absent
  | clear
  | upload (f : FileObj) (storedPath : String)

/-- The file system as the update/destroy code observes it:
`os.path.isfile`, and whether `os.remove` raises `OSError` on a path. -/
structure FsEnv where
  isfile : String → Bool
  removeFails : String → Bool

/-- Observable events of `perform_update`, in execution order. -/
inductive UEv where
  | save (d : StoredDoc)
  | removeFile (p : String)
  | logRemoveError (p : String)
deriving DecidableEq

/-- The record state `serializer.save(...)` commits. -/
def savedDocOf (old : StoredDoc) (patch : FilePatch) : StoredDoc :=
  { filePath :=
      match patch with
      | .absent => old.filePath
      | .clear => none
      | .upload _ p => some p,
    extracted_text :=
      match patch with
      | .absent => old.extracted_text
      | .clear => some ""
      | .upload f _ => some (extract_text_from_file f) }

/-- `'file' in serializer.validated_data`. -/
def newFileUploaded : FilePatch → Bool
  | .absent => false
  | .clear => true
  | .upload _ _ => true

/-- `file_effectively_changed` (views.py lines 144-147): true unless the
saved record's file has the same path as before. -/
def fileEffectivelyChanged (updatedPath : Option String) (oldPath : String) : Bool :=
  match updatedPath with
  | some q => q != oldPath
  | none => true

/-- views.py lines 113-153, as the ordered trace of its side effects:
the save commits first; the old physical file is removed only afterwards,
and only when the update carried the `'file'` key (or cleared the file),
the path actually changed, and the old file exists; an `OSError` from the
removal is only logged. -/
def perform_update (old : StoredDoc) (patch : FilePatch) (env : FsEnv) : List UEv :=
  match old.filePath with
  | none => [UEv.save (savedDocOf old patch)]
  | some oldPath =>
    if newFileUploaded patch || (savedDocOf old patch).filePath == none then
      if fileEffectivelyChanged (savedDocOf old patch).filePath oldPath
          && env.isfile oldPath then
        [UEv.save (savedDocOf old patch), UEv.removeFile oldPath] ++
          (if env.removeFails oldPath then [UEv.logRemoveError oldPath] else [])
      else [UEv.save (savedDocOf old patch)]
    else [UEv.save (savedDocOf old patch)]

/-- Observable events of `perform_destroy`, in execution order. -/
inductive DEv where
  | deleteRecord
  | removeFile (p : String)
  | logRemoveError (p : String)
deriving DecidableEq

/-- views.py lines 156-173, as the ordered trace of its side effects:
the DB record is deleted, then the physical file removal is attempted,
its `OSError` only logged.  No exception escapes (the function is total). -/
def perform_destroy (doc : StoredDoc) (env : FsEnv) : List DEv :=
  match doc.filePath with
  | none => [DEv.deleteRecord]
  | some p =>
    if env.isfile p then
      [DEv.deleteRecord, DEv.removeFile p] ++
        (if env.removeFails p then [DEv.logRemoveError p] else [])
    else [DEv.deleteRecord]

/-! ## Further definitions used to state the claims -/

/-- The page texts the loop keeps: truthy values of `page.extract_text()`. -/
def truthyTexts (pages : List (Option String)) : List String :=
  pages.filterMap (fun p =>
    match p with
    | some t => if t = "" then none else some t
    | none => none)

/-- Texts joined in order, a single newline between consecutive ones:
the form in which the specification describes the PDF result. -/
def nlJoin : List String → String
  | [] => ""
  | t :: r =>
    match r with
    | [] => t
    | _ :: _ => t ++ "\n" ++ nlJoin r

/-- Texts joined with a newline after each one: the form the loop builds. -/
def tagJoin : List String → String
  | [] => ""
  | t :: r => t ++ "\n" ++ tagJoin r

/-- Outcomes other than branch text are the placeholder/diagnostic strings. -/
def isDiagOutcome : Outcome → Bool
  | .text _ => false
  | _ => true

/-- Claim-side rendering of C3's normalisation policy, following the
claim's wording step by step: prefer a present non-empty direct text
field (trimmed); otherwise the concatenation of the sub-part texts in
order; if the result is still empty, the block indicator's reason; and
the fixed default string only when nothing usable is found.  To be
compared with `normalizeResponse`, which embeds the source. -/
def claimNormalize (r : GenAiResponse) : String :=
  let base :=
    match r.text with
    | some t =>
      if t ≠ "" then pyStrip t
      else
        match r.parts with
        | some ps => pyStrip (String.join (ps.filterMap (fun p => p.text)))
        | none => ""
    | none =>
      match r.parts with
      | some ps => pyStrip (String.join (ps.filterMap (fun p => p.text)))
      | none => ""
  if base = "" then
    match r.prompt_feedback with
    | some fb =>
      if fb.block_reason ≠ "" then
        blockedPre ++ (if fb.block_reason_message ≠ "" then fb.block_reason_message
                       else fb.block_reason)
      else defaultAnswerMsg
    | none => defaultAnswerMsg
  else base

/-- The candidate answer a branch of the source's normalisation actually
assigns: `none` when no branch assigns anything (text absent or falsy,
and parts absent or without any text-bearing part), in which case the
default string survives. -/
def candidateAnswer (r : GenAiResponse) : Option String :=
  match r.text with
  | some t =>
    if t ≠ "" then some (pyStrip t)
    else
      match r.parts with
      | some ps =>
        if ps.filterMap (fun p => p.text) ≠ [] then
          some (pyStrip (String.join (ps.filterMap (fun p => p.text))))
        else none
      | none => none
  | none =>
    match r.parts with
    | some ps =>
      if ps.filterMap (fun p => p.text) ≠ [] then
        some (pyStrip (String.join (ps.filterMap (fun p => p.text))))
      else none
    | none => none

/-- The amended normalisation policy: the block indicator is consulted
only when some branch produced a candidate that trims to empty; when no
branch produced a candidate the fixed default string is returned even if
a block indicator is present; a blank candidate with no usable block
indicator yields the empty answer. -/
def amendedNormalize (r : GenAiResponse) : String :=
  match candidateAnswer r with
  | none => defaultAnswerMsg
  | some c =>
    if c = "" then
      match r.prompt_feedback with
      | some fb =>
        if fb.block_reason ≠ "" then
          blockedPre ++ (if fb.block_reason_message ≠ "" then fb.block_reason_message
                         else fb.block_reason)
        else ""
      | none => ""
    else c

/-! ## Concrete inputs used by witnesses and counterexamples -/

/-- A `.txt` upload whose bytes are the UTF-8 encoding of `"hello\nworld"`. -/
def foHello : FileObj :=
  { bytes := [104, 101, 108, 108, 111, 10, 119, 111, 114, 108, 100],
    name := some "a.txt", content_type := none,
    pdfParse := .error "not a pdf", docxParse := .error "not a docx" }

/-- A `.txt` upload whose second byte (0xFF) is not decodable as UTF-8. -/
def foStrayByte : FileObj :=
  { bytes := [104, 0xFF, 105],
    name := some "a.txt", content_type := none,
    pdfParse := .error "not a pdf", docxParse := .error "not a docx" }

/-- A file declaring the DOCX content type while its name ends in `.txt`. -/
def foTxtNameDocxType : FileObj :=
  { bytes := [0xFF],
    name := some "a.txt", content_type := some docxMimeStr,
    pdfParse := .error "not a pdf", docxParse := .error "not a docx" }

/-- A file declaring the DOCX content type, with no usable name. -/
def foNoNameDocxType : FileObj :=
  { bytes := [72, 105],
    name := none, content_type := some docxMimeStr,
    pdfParse := .error "not a pdf", docxParse := .error "not a docx" }

/-- A `.pdf` upload on which the PDF library raises. -/
def foPdfBoom : FileObj :=
  { bytes := [], name := some "x.pdf", content_type := none,
    pdfParse := .error "boom", docxParse := .error "not a docx" }

/-- An empty `.txt` upload. -/
def foEmptyTxt : FileObj :=
  { bytes := [], name := some "empty.txt", content_type := none,
    pdfParse := .error "not a pdf", docxParse := .error "not a docx" }

/-- A two-page PDF whose pages yield "A" and "B". -/
def foPdfAB : FileObj :=
  { bytes := [], name := some "d.pdf", content_type := none,
    pdfParse := .ok [some "A", some "B"], docxParse := .error "not a docx" }

/-- An upload of unknown type whose bytes are sixty NUL bytes. -/
def foBinary : FileObj :=
  { bytes := List.replicate 60 0, name := none, content_type := none,
    pdfParse := .error "not a pdf", docxParse := .error "not a docx" }

/-- A model response with no text, no parts, and a block indicator. -/
def rBlockedNoParts : GenAiResponse :=
  { text := none, parts := none,
    prompt_feedback := some { block_reason := "SAFETY", block_reason_message := "" } }

def c5old : StoredDoc := { filePath := some "media/old.bin", extracted_text := some "x" }

def c5patch : FilePatch := .upload foHello "media/new.bin"

def c5env : FsEnv := { isfile := fun _ => true, removeFails := fun _ => false }

def c6doc : StoredDoc := { filePath := some "media/f.bin", extracted_text := none }

def c6env : FsEnv := { isfile := fun _ => true, removeFails := fun _ => true }

/-- An AI-service oracle that is never supposed to be reached. -/
def svcNever : String → Except String GenAiResponse := fun _ => .error "unreachable"

/-! ## Supporting lemmas about the string primitives -/

theorem strExt {s t : String} (h : s.data = t.data) : s = t := by
  cases s; cases t; exact congrArg String.mk h

theorem strAppend_assoc (a b c : String) : a ++ b ++ c = a ++ (b ++ c) := by
  apply strExt; simp [String.data_append, List.append_assoc]

theorem strAppend_empty (s : String) : s ++ "" = s := by
  apply strExt
  rw [String.data_append]
  show s.data ++ [] = s.data
  simp

theorem empty_strAppend (s : String) : "" ++ s = s := by
  apply strExt
  rw [String.data_append]
  rfl

theorem rstripL_append_newline (l : List Char) : rstripL (l ++ ['\n']) = rstripL l := by
  unfold rstripL
  rw [List.reverse_append]
  have h1 : (['\n'] : List Char).reverse = ['\n'] := rfl
  rw [h1, List.singleton_append, List.dropWhile_cons,
    if_pos (by decide : pyIsSpace '\n' = true)]

theorem stripL_append_newline (l : List Char) : stripL (l ++ ['\n']) = stripL l := by
  unfold stripL
  rw [rstripL_append_newline]

theorem pyStrip_append_newline (s : String) : pyStrip (s ++ "\n") = pyStrip s := by
  unfold pyStrip
  have h : (s ++ "\n").data = s.data ++ ['\n'] := by
    rw [String.data_append]
  rw [h, stripL_append_newline]

/-- A list whose leading drop is itself and which is nonempty starts with a
character the predicate rejects; hence prepending it absorbs nothing. -/
theorem lstripL_append_of_lstripL_self (pre rest : List Char)
    (h0 : pre ≠ []) (h1 : lstripL pre = pre) : lstripL (pre ++ rest) = pre ++ rest := by
  obtain ⟨a, as, rfl⟩ : ∃ a as, pre = a :: as := by
    cases pre with
    | nil => exact absurd rfl h0
    | cons a as => exact ⟨a, as, rfl⟩
  have ha : pyIsSpace a = false := by
    cases hsp : pyIsSpace a with
    | false => rfl
    | true =>
      exfalso
      unfold lstripL at h1
      rw [List.dropWhile_cons, if_pos hsp] at h1
      have hlen := congrArg List.length h1
      have hle : (as.dropWhile pyIsSpace).length ≤ as.length :=
        (List.dropWhile_sublist pyIsSpace).length_le
      rw [List.length_cons] at hlen
      omega
  unfold lstripL
  rw [List.cons_append, List.dropWhile_cons, if_neg (by simp [ha])]

theorem rstripL_append_of_not_all_space (pre rest : List Char)
    (h : rest.all pyIsSpace = false) : rstripL (pre ++ rest) = pre ++ rstripL rest := by
  unfold rstripL
  rw [List.reverse_append, List.dropWhile_append]
  have hne : rest.reverse.dropWhile pyIsSpace ≠ [] := by
    intro hnil
    rw [List.dropWhile_eq_nil_iff] at hnil
    have : rest.all pyIsSpace = true := by
      rw [List.all_eq_true]
      intro x hx
      exact hnil x (List.mem_reverse.mpr hx)
    rw [this] at h; cases h
  rw [if_neg (by simpa [List.isEmpty_iff] using hne)]
  simp

theorem stripL_split (pre rest : List Char) (h0 : pre ≠ []) (h1 : lstripL pre = pre)
    (h2 : rest.all pyIsSpace = false) :
    stripL (pre ++ rest) = pre ++ rstripL rest := by
  unfold stripL
  rw [rstripL_append_of_not_all_space pre rest h2]
  refine lstripL_append_of_lstripL_self pre _ h0 h1

theorem isPrefixOf_append_self (l t : List Char) : l.isPrefixOf (l ++ t) = true := by
  induction l with
  | nil => simp [List.isPrefixOf]
  | cons a as ih => simp [List.isPrefixOf, ih]

theorem isPrefixOf_comparable (l l1 l2 : List Char) (h1 : l1.isPrefixOf l = true)
    (h2 : l2.isPrefixOf l = true) : (l1.isPrefixOf l2 || l2.isPrefixOf l1) = true := by
  induction l generalizing l1 l2 with
  | nil =>
    cases l1 with
    | nil => simp [List.isPrefixOf]
    | cons a as => simp [List.isPrefixOf] at h1
  | cons c cs ih =>
    cases l1 with
    | nil => simp [List.isPrefixOf]
    | cons a as =>
      cases l2 with
      | nil => simp [List.isPrefixOf]
      | cons b bs =>
        simp only [List.isPrefixOf, Bool.and_eq_true, beq_iff_eq] at h1 h2
        obtain ⟨rfl, h1⟩ := h1
        obtain ⟨rfl, h2⟩ := h2
        simpa [List.isPrefixOf] using ih as bs h1 h2

/-- Two suffix tests against incomparable suffixes cannot both succeed. -/
theorem endsWith_incompat (s : String) {a b : String}
    (hab : (a.data.reverse.isPrefixOf b.data.reverse
            || b.data.reverse.isPrefixOf a.data.reverse) = false)
    (ha : strEndsWith s a = true) (hb : strEndsWith s b = true) : False := by
  unfold strEndsWith at ha hb
  have := isPrefixOf_comparable s.data.reverse _ _ ha hb
  rw [hab] at this
  cases this

/-- After stripping, a string made of a non-blank literal head followed by
anything that contains ink still starts with that head. -/
theorem strip_startswith (preS midS eS : String)
    (h0 : preS.data ≠ []) (h1 : lstripL preS.data = preS.data)
    (h2 : midS.data.all pyIsSpace = false) :
    strStartsWith (pyStrip (preS ++ (midS ++ eS))) preS = true := by
  unfold strStartsWith pyStrip
  have hd : (preS ++ (midS ++ eS)).data = preS.data ++ (midS.data ++ eS.data) := by
    rw [String.data_append, String.data_append]
  rw [hd]
  have h2' : (midS.data ++ eS.data).all pyIsSpace = false := by
    rw [List.all_append, h2, Bool.false_and]
  rw [stripL_split _ _ h0 h1 h2']
  exact isPrefixOf_append_self _ _

theorem bool_eq_false {b : Bool} (h : ¬ b = true) : b = false := by
  cases b with
  | false => rfl
  | true => exact absurd rfl h

theorem endsWith_false_of (s : String) {a b : String}
    (hab : (a.data.reverse.isPrefixOf b.data.reverse
            || b.data.reverse.isPrefixOf a.data.reverse) = false)
    (ha : strEndsWith s a = true) : strEndsWith s b = false := by
  cases hx : strEndsWith s b with
  | false => rfl
  | true => exact (endsWith_incompat s (by rwa [Bool.or_comm] at hab) hx ha).elim

/-! ## Which branch of the extractor dispatch a file reaches -/

theorem resolve_of_pdfSuffix (fo : FileObj)
    (h : strEndsWith (pyLower (fileNameOf fo)) ".pdf" = true) :
    resolveMime fo = some "application/pdf" := by
  simp [resolveMime, mimeGuess, h]

theorem resolve_of_docxSuffix (fo : FileObj)
    (h : strEndsWith (pyLower (fileNameOf fo)) ".docx" = true) :
    resolveMime fo = some docxMimeStr := by
  have h1 : strEndsWith (pyLower (fileNameOf fo)) ".pdf" = false :=
    endsWith_false_of _ (by decide) h
  simp [resolveMime, mimeGuess, h, h1]

theorem resolve_of_docSuffix (fo : FileObj)
    (h : strEndsWith (pyLower (fileNameOf fo)) ".doc" = true) :
    resolveMime fo = some "application/msword" := by
  have h1 : strEndsWith (pyLower (fileNameOf fo)) ".pdf" = false :=
    endsWith_false_of _ (by decide) h
  have h2 : strEndsWith (pyLower (fileNameOf fo)) ".docx" = false :=
    endsWith_false_of _ (by decide) h
  simp [resolveMime, mimeGuess, h, h1, h2]

theorem resolve_of_txtSuffix (fo : FileObj)
    (h : strEndsWith (pyLower (fileNameOf fo)) ".txt" = true) :
    resolveMime fo = some "text/plain" := by
  have h1 : strEndsWith (pyLower (fileNameOf fo)) ".pdf" = false :=
    endsWith_false_of _ (by decide) h
  have h2 : strEndsWith (pyLower (fileNameOf fo)) ".docx" = false :=
    endsWith_false_of _ (by decide) h
  have h3 : strEndsWith (pyLower (fileNameOf fo)) ".doc" = false :=
    endsWith_false_of _ (by decide) h
  simp [resolveMime, mimeGuess, h, h1, h2, h3]

theorem suffix_checks_of_mimeGuess_none (fn : String) (h : mimeGuess fn = none) :
    strEndsWith (pyLower fn) ".pdf" = false ∧ strEndsWith (pyLower fn) ".docx" = false ∧
    strEndsWith (pyLower fn) ".doc" = false ∧ strEndsWith (pyLower fn) ".txt" = false := by
  unfold mimeGuess at h
  split_ifs at h with h1 h2 h3 h4
  exact ⟨bool_eq_false h1, bool_eq_false h2, bool_eq_false h3, bool_eq_false h4⟩

/-! ## The PDF page join, related to a single-newline-separated join -/

theorem pdfFoldl_eq (pages : List (Option String)) :
    ∀ acc : String, pages.foldl pdfStep acc = acc ++ tagJoin (truthyTexts pages) := by
  induction pages with
  | nil => intro acc; simp [truthyTexts, tagJoin, strAppend_empty]
  | cons p ps ih =>
    intro acc
    cases p with
    | none =>
      rw [List.foldl_cons]
      show ps.foldl pdfStep (pdfStep acc none) = _
      rw [show pdfStep acc none = acc from rfl, ih]
      simp [truthyTexts, List.filterMap_cons]
    | some t =>
      by_cases ht : t = ""
      · subst ht
        rw [List.foldl_cons]
        show ps.foldl pdfStep (pdfStep acc (some "")) = _
        rw [show pdfStep acc (some "") = acc from rfl, ih]
        simp [truthyTexts, List.filterMap_cons]
      · rw [List.foldl_cons]
        show ps.foldl pdfStep (pdfStep acc (some t)) = _
        rw [show pdfStep acc (some t) = if t = "" then acc else acc ++ t ++ "\n" from rfl,
          if_neg ht, ih]
        have htr : truthyTexts (some t :: ps) = t :: truthyTexts ps := by
          simp [truthyTexts, List.filterMap_cons, ht]
        rw [htr]
        show (acc ++ t ++ "\n") ++ tagJoin (truthyTexts ps) = acc ++ (t ++ "\n" ++ tagJoin (truthyTexts ps))
        rw [strAppend_assoc (acc ++ t) "\n" (tagJoin (truthyTexts ps)),
          strAppend_assoc acc t ("\n" ++ tagJoin (truthyTexts ps)),
          strAppend_assoc t "\n" (tagJoin (truthyTexts ps))]

theorem pdfConcat_eq_tagJoin (pages : List (Option String)) :
    pdfConcat pages = tagJoin (truthyTexts pages) := by
  unfold pdfConcat
  rw [pdfFoldl_eq, empty_strAppend]

theorem tagJoin_eq_nlJoin_append (ts : List String) (h : ts ≠ []) :
    tagJoin ts = nlJoin ts ++ "\n" := by
  induction ts with
  | nil => exact absurd rfl h
  | cons t r ih =>
    cases r with
    | nil => simp [tagJoin, nlJoin, strAppend_empty]
    | cons u v =>
      show t ++ "\n" ++ tagJoin (u :: v) = nlJoin (t :: u :: v) ++ "\n"
      rw [ih (by simp)]
      show t ++ "\n" ++ (nlJoin (u :: v) ++ "\n") = (t ++ "\n" ++ nlJoin (u :: v)) ++ "\n"
      rw [strAppend_assoc (t ++ "\n") (nlJoin (u :: v)) "\n"]

theorem pyStrip_pdfConcat (pages : List (Option String)) :
    pyStrip (pdfConcat pages) = pyStrip (nlJoin (truthyTexts pages)) := by
  rw [pdfConcat_eq_tagJoin]
  cases h : truthyTexts pages with
  | nil => rfl
  | cons t r =>
    rw [tagJoin_eq_nlJoin_append (t :: r) (by simp), pyStrip_append_newline]

/-! ## The diagnostic strings survive stripping recognisably -/

theorem pyStrip_noTextMsg : pyStrip noTextMsg = noTextMsg := by decide

theorem pyStrip_unsupContentMsg : pyStrip unsupContentMsg = unsupContentMsg := by decide

theorem pyStrip_ne_empty_of (preS restS : String) (h0 : preS.data ≠ [])
    (h1 : lstripL preS.data = preS.data) (h2 : restS.data.all pyIsSpace = false) :
    pyStrip (preS ++ restS) ≠ "" := by
  unfold pyStrip
  rw [String.data_append, stripL_split _ _ h0 h1 h2]
  intro hc
  have hd : preS.data ++ rstripL restS.data = ([] : List Char) := congrArg String.data hc
  exact h0 (List.append_eq_nil.mp hd).1

theorem extractErr_strip_startswith (e : String) :
    strStartsWith (pyStrip (extractErrPre ++ ": " ++ e)) extractErrPre = true := by
  rw [strAppend_assoc]
  exact strip_startswith extractErrPre ": " e (by decide) (by decide) (by decide)

theorem unsupMime_render_eq (m : Option String) :
    renderBranch (.unsupMime m) =
      "Unsupported file type" ++ (" (" ++ (mimeOrUnknown m ++ "). Could not decode as text.")) := by
  show "Unsupported file type (" ++ mimeOrUnknown m ++ "). Could not decode as text." = _
  rw [show ("Unsupported file type (" : String) = "Unsupported file type" ++ " (" from by decide]
  rw [strAppend_assoc, strAppend_assoc]

theorem unsupMime_strip_startswith (m : Option String) :
    strStartsWith (pyStrip (renderBranch (.unsupMime m))) "Unsupported file type" = true := by
  rw [unsupMime_render_eq]
  exact strip_startswith _ _ _ (by decide) (by decide) (by decide)

theorem unsupMime_strip_ne_empty (m : Option String) :
    pyStrip (renderBranch (.unsupMime m)) ≠ "" := by
  rw [unsupMime_render_eq]
  apply pyStrip_ne_empty_of _ _ (by decide) (by decide)
  rw [String.data_append, List.all_append,
    show ((" (" : String).data.all pyIsSpace) = false from by decide, Bool.false_and]

/-! ## The `.doc` failure diagnostic is unreachable -/

theorem branchText_no_docError (fo : FileObj) (br : BranchRes)
    (h : branchText fo = .ok br) : ∀ e, br ≠ .docError e := by
  intro e
  simp only [branchText] at h
  split at h
  · split at h
    · exact Except.noConfusion h
    · injection h with h'
      subst h'
      simp
  · split at h
    · split at h
      · split at h
        · exact Except.noConfusion h
        · injection h with h'
          subst h'
          simp
      · split at h
        · injection h with h'
          subst h'
          simp
        · rename_i heq
          exact absurd heq (by simp [decodeLatin1E])
    · split at h
      · injection h with h'
        subst h'
        simp
      · split at h
        · split at h
          · injection h with h'
            subst h'
            simp
          · injection h with h'
            subst h'
            simp
        · rename_i heq
          exact absurd heq (by simp [decodeUtf8IgnoreE])

/-! ## How the post-processing composes with each branch -/

theorem extract_of_branch_text (fo : FileObj) (t : String)
    (h : branchText fo = .ok (.text t)) :
    extract_text_from_file fo = postText t := by
  unfold extract_text_from_file extractOutcome
  rw [h]
  show pyStrip (renderOutcome
      (if pyStrip (renderBranch (BranchRes.text t)) = "" then Outcome.noText
       else outcomeOfBranch (BranchRes.text t))) = postText t
  by_cases ht : pyStrip t = ""
  · rw [if_pos (show pyStrip (renderBranch (BranchRes.text t)) = "" from ht)]
    show pyStrip noTextMsg = postText t
    rw [pyStrip_noTextMsg]
    unfold postText
    rw [if_pos ht]
  · rw [if_neg (show ¬ pyStrip (renderBranch (BranchRes.text t)) = "" from ht)]
    show pyStrip t = postText t
    unfold postText
    rw [if_neg ht]

theorem branchText_pdf (fo : FileObj) (pages : List (Option String))
    (hc : (resolveMime fo == some "application/pdf"
           || strEndsWith (pyLower (fileNameOf fo)) ".pdf") = true)
    (hp : fo.pdfParse = .ok pages) :
    branchText fo = .ok (.text (pdfConcat pages)) := by
  unfold branchText
  rw [if_pos hc, hp]

theorem branchText_txt (fo : FileObj) (hm : resolveMime fo = some "text/plain")
    (hpdf : strEndsWith (pyLower (fileNameOf fo)) ".pdf" = false)
    (hdocx : strEndsWith (pyLower (fileNameOf fo)) ".docx" = false)
    (hdoc : strEndsWith (pyLower (fileNameOf fo)) ".doc" = false) :
    branchText fo = .ok (.text (decodeUtf8Ignore fo.bytes)) := by
  unfold branchText
  rw [hm, hpdf, hdocx, hdoc]
  rfl

theorem branchText_doc_latin1 (fo : FileObj) (hm : resolveMime fo = some docxMimeStr)
    (hpdf : strEndsWith (pyLower (fileNameOf fo)) ".pdf" = false)
    (hdocx : strEndsWith (pyLower (fileNameOf fo)) ".docx" = false) :
    branchText fo = .ok (.text (decodeLatin1 fo.bytes)) := by
  unfold branchText
  rw [hm, hpdf, hdocx]
  rfl

/-! ## Claims -/

/-- C1: extraction never fails outward.  `extract_text_from_file` is a
total function of the file object (every library behaviour, declared
name, declared content type and byte content is covered by the model),
and whenever the dispatch raises internally (`branchText` yields an
`Except.error`), the returned string is the stripped descriptive
diagnostic built from the exception's message, which starts with the
fixed extraction-error prefix. -/
theorem C1_extract_never_fails_outward (fo : FileObj) :
    ∃ s : String, extract_text_from_file fo = s ∧
      ∀ e, branchText fo = .error e →
        s = pyStrip (extractErrPre ++ ": " ++ e) ∧
        strStartsWith s extractErrPre = true := by
  refine ⟨extract_text_from_file fo, rfl, ?_⟩
  intro e he
  have hx : extract_text_from_file fo = pyStrip (extractErrPre ++ ": " ++ e) := by
    unfold extract_text_from_file extractOutcome
    rw [he]
    rfl
  refine ⟨hx, ?_⟩
  rw [hx]
  exact extractErr_strip_startswith e

/-- Witness for C1 at a PDF upload on which the parsing library raises. -/
theorem C1_witness :
    extract_text_from_file foPdfBoom = "An error occurred during text extraction: boom" ∧
    strStartsWith (extract_text_from_file foPdfBoom) extractErrPre = true := by
  obtain ⟨s, hs, himp⟩ := C1_extract_never_fails_outward foPdfBoom
  obtain ⟨h1, h2⟩ := himp "boom" (by decide)
  constructor
  · rw [hs, h1]; decide
  · rw [hs]; exact h2

/-- C4 counterexample: the claim's "replacing undecodable bytes"
semantics (Python's `errors='replace'`) disagrees with the code on a
`.txt` file whose middle byte 0xFF is undecodable: the code drops the
byte (`errors='ignore'`) and yields "hi", while replacement would keep a
U+FFFD in its place. -/
theorem C4_counterexample :
    extract_text_from_file foStrayByte ≠ postText (decodeUtf8Replace foStrayByte.bytes) := by
  decide

/-- C4 (amended): for every input whose type resolves to plain text (by
MIME type or `.txt` suffix), extraction decodes the bytes as UTF-8
without failing, ignoring (dropping) undecodable bytes rather than
replacing them; the result is that decode, stripped, or the no-text
placeholder when it is blank; in particular the `.txt` file with the
UTF-8 bytes of "hello\nworld" extracts to exactly "hello\nworld". -/
theorem C4_txt_branch_utf8_ignore (fo : FileObj)
    (h : resolveMime fo = some "text/plain" ∨
         strEndsWith (pyLower (fileNameOf fo)) ".txt" = true) :
    extract_text_from_file fo = postText (decodeUtf8Ignore fo.bytes) := by
  have hm : resolveMime fo = some "text/plain" := by
    rcases h with hm | hsuf
    · exact hm
    · exact resolve_of_txtSuffix fo hsuf
  have hpdf : strEndsWith (pyLower (fileNameOf fo)) ".pdf" = false := by
    cases hx : strEndsWith (pyLower (fileNameOf fo)) ".pdf" with
    | false => rfl
    | true => exact absurd ((resolve_of_pdfSuffix fo hx).symm.trans hm) (by decide)
  have hdocx : strEndsWith (pyLower (fileNameOf fo)) ".docx" = false := by
    cases hx : strEndsWith (pyLower (fileNameOf fo)) ".docx" with
    | false => rfl
    | true => exact absurd ((resolve_of_docxSuffix fo hx).symm.trans hm) (by decide)
  have hdoc : strEndsWith (pyLower (fileNameOf fo)) ".doc" = false := by
    cases hx : strEndsWith (pyLower (fileNameOf fo)) ".doc" with
    | false => rfl
    | true => exact absurd ((resolve_of_docSuffix fo hx).symm.trans hm) (by decide)
  exact extract_of_branch_text fo _ (branchText_txt fo hm hpdf hdocx hdoc)

/-- Witness for C4 at the `.txt` file with the UTF-8 bytes of
"hello\nworld". -/
theorem C4_witness :
    (resolveMime foHello = some "text/plain" ∨
     strEndsWith (pyLower (fileNameOf foHello)) ".txt" = true) ∧
    extract_text_from_file foHello = "hello\nworld" := by
  refine ⟨Or.inr (by decide), ?_⟩
  rw [C4_txt_branch_utf8_ignore foHello (Or.inr (by decide))]
  decide

/-- C7: whenever the dispatch completes with branch text that is empty or
whitespace-only, extraction returns the fixed no-text placeholder. -/
theorem C7_blank_text_gives_placeholder (fo : FileObj) (br : BranchRes)
    (h1 : branchText fo = .ok br) (h2 : pyStrip (renderBranch br) = "") :
    extract_text_from_file fo = noTextMsg := by
  unfold extract_text_from_file extractOutcome
  rw [h1]
  show pyStrip (renderOutcome
      (if pyStrip (renderBranch br) = "" then Outcome.noText else outcomeOfBranch br)) = noTextMsg
  rw [if_pos h2]
  exact pyStrip_noTextMsg

/-- Witness for C7: the empty `.txt` file extracts to the placeholder. -/
theorem C7_witness :
    branchText foEmptyTxt = .ok (.text "") ∧
    extract_text_from_file foEmptyTxt = noTextMsg :=
  ⟨by decide, C7_blank_text_gives_placeholder foEmptyTxt (.text "") (by decide) (by decide)⟩

/-- C8: on inputs resolving to PDF whose parse succeeds, extraction
returns the per-page texts joined in page order with single newlines,
pages yielding no text skipped without failing the operation, the whole
stripped; the no-text placeholder when nothing remains. -/
theorem C8_pdf_newline_join (fo : FileObj) (pages : List (Option String))
    (hb : resolveMime fo = some "application/pdf" ∨
          strEndsWith (pyLower (fileNameOf fo)) ".pdf" = true)
    (hp : fo.pdfParse = .ok pages) :
    extract_text_from_file fo = postText (nlJoin (truthyTexts pages)) := by
  have hc : (resolveMime fo == some "application/pdf"
             || strEndsWith (pyLower (fileNameOf fo)) ".pdf") = true := by
    rcases hb with hm | hs
    · rw [hm]; rfl
    · rw [hs]; simp
  rw [extract_of_branch_text fo _ (branchText_pdf fo pages hc hp)]
  unfold postText
  rw [pyStrip_pdfConcat]

/-- Witness for C8: a two-page PDF yielding "A" and "B" extracts to the
two texts joined by a single newline, in page order. -/
theorem C8_witness :
    foPdfAB.pdfParse = .ok [some "A", some "B"] ∧
    extract_text_from_file foPdfAB = "A\nB" := by
  refine ⟨rfl, ?_⟩
  rw [C8_pdf_newline_join foPdfAB [some "A", some "B"] (Or.inr (by decide)) rfl]
  decide

/-- C10 counterexample: with a declared name ending in `.txt`, the
name-based MIME guess takes priority over the declared DOCX content
type, so the code takes the UTF-8 text branch rather than the latin-1
decode the claim asserts; on the byte 0xFF the two results differ. -/
theorem C10_counterexample :
    extract_text_from_file foTxtNameDocxType ≠
      postText (decodeLatin1 foTxtNameDocxType.bytes) := by
  decide

/-- C10 (amended): when the declared name yields no extension-based MIME
guess (so the declared DOCX content type is what the type resolves to)
and in particular does not end in `.docx`, extraction takes the naive
single-byte latin-1 whole-file decode, not the paragraph-based DOCX
extractor. -/
theorem C10_docx_type_nondocx_name_latin1 (fo : FileObj)
    (h1 : mimeGuess (fileNameOf fo) = none)
    (h2 : fo.content_type = some docxMimeStr) :
    extract_text_from_file fo = postText (decodeLatin1 fo.bytes) := by
  obtain ⟨hpdf, hdocx, hdoc, htxt⟩ := suffix_checks_of_mimeGuess_none _ h1
  have hm : resolveMime fo = some docxMimeStr := by
    unfold resolveMime
    rw [h1]
    exact h2
  exact extract_of_branch_text fo _ (branchText_doc_latin1 fo hm hpdf hdocx)

/-- Witness for C10 at a file with no usable name and the DOCX content
type: the two bytes of "Hi" decode through latin-1. -/
theorem C10_witness :
    mimeGuess (fileNameOf foNoNameDocxType) = none ∧
    extract_text_from_file foNoNameDocxType = "Hi" := by
  refine ⟨by decide, ?_⟩
  rw [C10_docx_type_nondocx_name_latin1 foNoNameDocxType (by decide) rfl]
  decide

/-- C2: whenever the stored extracted text is empty (or null), exactly
one of the fixed placeholder/error strings, or an extension of the
extraction-error or unsupported-type prefix, the ask-ai action responds
with status 400 and the external AI service is not invoked — for every
question, API key and service behaviour. -/
theorem C2_unsuitable_text_rejected_before_ai (t q apiKey : Option String)
    (svc : String → Except String GenAiResponse)
    (h : t = none ∨ ∃ s, t = some s ∧
      (s = "" ∨ s ∈ unsuitableTextMessages ∨
       strStartsWith s extractErrPre = true ∨
       strStartsWith s "Unsupported file type" = true)) :
    (ask_ai t q apiKey svc).status = 400 ∧ (ask_ai t q apiKey svc).aiInvoked = false := by
  have hu : textUnsuitable t = true := by
    rcases h with rfl | ⟨s, rfl, hs⟩
    · rfl
    · unfold textUnsuitable
      rcases hs with rfl | hmem | hsw | hsw
      · simp
      · simp [hmem]
      · simp [hsw]
      · simp [hsw]
  unfold ask_ai
  cases hqi : questionInvalid q with
  | true => exact ⟨rfl, rfl⟩
  | false =>
    rw [if_neg (show ¬ false = true by decide), if_pos hu]
    exact ⟨rfl, rfl⟩

/-- Witness for C2: the no-text placeholder with a real question, a
configured key and a service that would answer. -/
theorem C2_witness :
    (ask_ai (some noTextMsg) (some "What is this?") (some "key") svcNever).status = 400 ∧
    (ask_ai (some noTextMsg) (some "What is this?") (some "key") svcNever).aiInvoked = false :=
  C2_unsuitable_text_rejected_before_ai _ _ _ _
    (Or.inr ⟨noTextMsg, rfl, Or.inr (Or.inl (by decide))⟩)

/-- C9: every diagnostic outcome the extractor can actually produce (the
no-text placeholder, the unsupported-content message, the unsupported
type message for any MIME value, and every extraction-error string) is
classified unsuitable by the ask-ai pre-check, and the `.doc` failure
diagnostic is never produced at all, because the latin-1 decode with
errors ignored is total — so the staleness of its exact-match entry
cannot let an extractor diagnostic reach the AI service. -/
theorem C9_diagnostics_classified_unsuitable (fo : FileObj) :
    (isDiagOutcome (extractOutcome fo) = true →
      textUnsuitable (some (extract_text_from_file fo)) = true)
    ∧ ∀ e, extractOutcome fo ≠ .docError e := by
  constructor
  · intro hdiag
    cases hb : branchText fo with
    | error e =>
      have he : extract_text_from_file fo = pyStrip (extractErrPre ++ ": " ++ e) := by
        unfold extract_text_from_file extractOutcome
        rw [hb]
        rfl
      rw [he]
      have hsw := extractErr_strip_startswith e
      simp [textUnsuitable, hsw]
    | ok br =>
      cases br with
      | text s =>
        by_cases hstrip : pyStrip (renderBranch (BranchRes.text s)) = ""
        · have he : extract_text_from_file fo = noTextMsg := by
            unfold extract_text_from_file extractOutcome
            rw [hb]
            show pyStrip (renderOutcome (if pyStrip (renderBranch (BranchRes.text s)) = ""
              then Outcome.noText else outcomeOfBranch (BranchRes.text s))) = noTextMsg
            rw [if_pos hstrip]
            exact pyStrip_noTextMsg
          rw [he]
          decide
        · exfalso
          have ho : extractOutcome fo = .text s := by
            unfold extractOutcome
            rw [hb]
            show (if pyStrip (renderBranch (BranchRes.text s)) = "" then Outcome.noText
              else outcomeOfBranch (BranchRes.text s)) = Outcome.text s
            rw [if_neg hstrip]
            rfl
          rw [ho] at hdiag
          simp [isDiagOutcome] at hdiag
      | unsupContent =>
        have hstrip : ¬ pyStrip (renderBranch BranchRes.unsupContent) = "" := by decide
        have he : extract_text_from_file fo = unsupContentMsg := by
          unfold extract_text_from_file extractOutcome
          rw [hb]
          show pyStrip (renderOutcome (if pyStrip (renderBranch BranchRes.unsupContent) = ""
            then Outcome.noText else outcomeOfBranch BranchRes.unsupContent)) = unsupContentMsg
          rw [if_neg hstrip]
          exact pyStrip_unsupContentMsg
        rw [he]
        decide
      | unsupMime m =>
        have hstrip := unsupMime_strip_ne_empty m
        have he : extract_text_from_file fo = pyStrip (renderBranch (BranchRes.unsupMime m)) := by
          unfold extract_text_from_file extractOutcome
          rw [hb]
          show pyStrip (renderOutcome (if pyStrip (renderBranch (BranchRes.unsupMime m)) = ""
            then Outcome.noText else outcomeOfBranch (BranchRes.unsupMime m))) =
            pyStrip (renderBranch (BranchRes.unsupMime m))
          rw [if_neg hstrip]
          rfl
        rw [he]
        have hsw := unsupMime_strip_startswith m
        simp [textUnsuitable, hsw]
      | docError e =>
        exact absurd rfl (branchText_no_docError fo _ hb e)
  · intro e
    cases hb : branchText fo with
    | error e' =>
      have ho : extractOutcome fo = .extractErr e' := by
        unfold extractOutcome
        rw [hb]
      rw [ho]
      simp
    | ok br =>
      unfold extractOutcome
      rw [hb]
      show (if pyStrip (renderBranch br) = "" then Outcome.noText else outcomeOfBranch br) ≠
        Outcome.docError e
      by_cases hstrip : pyStrip (renderBranch br) = ""
      · rw [if_pos hstrip]
        simp
      · rw [if_neg hstrip]
        cases br with
        | text s => simp [outcomeOfBranch]
        | unsupContent => simp [outcomeOfBranch]
        | unsupMime m => simp [outcomeOfBranch]
        | docError e2 => exact absurd rfl (branchText_no_docError fo _ hb e2)

/-- Witness for C9 at an unknown-type binary upload, whose outcome is the
unsupported-content diagnostic. -/
theorem C9_witness :
    isDiagOutcome (extractOutcome foBinary) = true ∧
    textUnsuitable (some (extract_text_from_file foBinary)) = true :=
  ⟨by decide, (C9_diagnostics_classified_unsuitable foBinary).1 (by decide)⟩

/-- C3 counterexample: on a response with no direct text field, no parts
and a present block indicator, the claimed normalisation order yields the
block reason, but the code returns the fixed default string — the block
indicator is only consulted when a branch actually assigned an empty
answer. -/
theorem C3_counterexample :
    normalizeResponse rBlockedNoParts ≠ claimNormalize rBlockedNoParts := by
  decide

/-- C3 (amended): the normalisation prefers a present non-empty direct
text field (trimmed), otherwise the trimmed concatenation of sub-part
texts when a parts attribute with at least one text-bearing part exists;
the content-blocked indicator is consulted only when such a branch
produced a candidate that trims to empty; when no branch produced any
candidate the fixed "did not return a text response" string is the
answer even if a block indicator is present; and an empty candidate with
no usable block indicator yields the empty answer. -/
theorem C3_normalize_follows_amended_order (r : GenAiResponse) :
    normalizeResponse r = amendedNormalize r := by
  have hd : ¬ defaultAnswerMsg = "" := by decide
  unfold normalizeResponse amendedNormalize candidateAnswer
  cases ht : r.text with
  | none =>
    cases hp : r.parts with
    | none => simp [hd]
    | some ps =>
      by_cases hts : ps.filterMap (fun p => p.text) = []
      · simp [hts, hd]
      · by_cases hstrip : pyStrip (String.join (ps.filterMap (fun p => p.text))) = ""
        · simp [hts, hstrip]
        · simp [hts, hstrip]
  | some t =>
    by_cases htt : t = ""
    · subst htt
      cases hp : r.parts with
      | none => simp [hd]
      | some ps =>
        by_cases hts : ps.filterMap (fun p => p.text) = []
        · simp [hts, hd]
        · by_cases hstrip : pyStrip (String.join (ps.filterMap (fun p => p.text))) = ""
          · simp [hts, hstrip]
          · simp [hts, hstrip]
    · by_cases hstrip : pyStrip t = ""
      · simp [htt, hstrip]
      · simp [htt, hstrip]

/-- C5: after an update is saved, the old payload is released exactly
once — and strictly after the save — when the saved file reference's
path differs from the old one and the old payload exists on disk; when
the saved reference keeps the same path, no release happens.  (A removal
failure additionally appends only a log event.) -/
theorem C5_release_only_after_commit_and_only_if_changed (old : StoredDoc)
    (patch : FilePatch) (env : FsEnv) (p : String)
    (hold : old.filePath = some p) (hfile : env.isfile p = true) :
    ((savedDocOf old patch).filePath ≠ some p →
      perform_update old patch env =
        [UEv.save (savedDocOf old patch), UEv.removeFile p] ++
          (if env.removeFails p then [UEv.logRemoveError p] else []))
    ∧ ((savedDocOf old patch).filePath = some p →
      perform_update old patch env = [UEv.save (savedDocOf old patch)]) := by
  constructor
  · intro hne
    cases patch with
    | absent => exact absurd (show (savedDocOf old .absent).filePath = some p from hold) hne
    | clear =>
      simp only [perform_update, hold]
      simp [newFileUploaded, fileEffectivelyChanged, savedDocOf, hfile]
    | upload f q =>
      have hq : q ≠ p := by
        intro hqp
        exact hne (by simp [savedDocOf, hqp])
      simp only [perform_update, hold]
      simp [newFileUploaded, fileEffectivelyChanged, savedDocOf, hfile, hq]
  · intro heq
    cases patch with
    | absent =>
      simp only [perform_update, hold]
      simp [newFileUploaded, savedDocOf, hold]
    | clear => exact absurd heq (by simp [savedDocOf])
    | upload f q =>
      have hq : q = p := by simpa [savedDocOf] using heq
      subst hq
      simp only [perform_update, hold]
      simp [newFileUploaded, fileEffectivelyChanged, savedDocOf]

/-- Witness for C5: replacing the stored file with a new one at a
different path releases the old payload exactly once, after the save. -/
theorem C5_witness :
    perform_update c5old c5patch c5env =
      [UEv.save (savedDocOf c5old c5patch), UEv.removeFile "media/old.bin"] := by
  have h := (C5_release_only_after_commit_and_only_if_changed c5old c5patch c5env
    "media/old.bin" rfl rfl).1 (by decide)
  simpa [c5env] using h

/-- C6: deletion removes the database record first — the trace begins
with the record deletion, which occurs exactly once and is never undone
— and a payload-removal attempt happens only afterwards, only for the
record's own existing file; a removal failure contributes only a log
event and no exception escapes (the trace function is total). -/
theorem C6_destroy_deletes_record_first (doc : StoredDoc) (env : FsEnv) :
    (perform_destroy doc env).head? = some DEv.deleteRecord
    ∧ (perform_destroy doc env).count DEv.deleteRecord = 1
    ∧ ∀ p, DEv.removeFile p ∈ perform_destroy doc env →
        doc.filePath = some p ∧ env.isfile p = true := by
  cases hf : doc.filePath with
  | none =>
    refine ⟨?_, ?_, ?_⟩
    · simp [perform_destroy, hf]
    · simp [perform_destroy, hf]
    · intro p hm
      simp [perform_destroy, hf] at hm
  | some p =>
    by_cases hi : env.isfile p = true
    · refine ⟨?_, ?_, ?_⟩
      · by_cases hr : env.removeFails p = true <;> simp [perform_destroy, hf, hi, hr]
      · by_cases hr : env.removeFails p = true <;>
          simp [perform_destroy, hf, hi, hr, List.count_cons]
      · intro p2 hm
        by_cases hr : env.removeFails p = true
        · simp [perform_destroy, hf, hi, hr] at hm
          subst hm
          exact ⟨rfl, hi⟩
        · simp [perform_destroy, hf, hi, hr] at hm
          subst hm
          exact ⟨rfl, hi⟩
    · refine ⟨?_, ?_, ?_⟩
      · simp [perform_destroy, hf, hi]
      · simp [perform_destroy, hf, hi]
      · intro p2 hm
        simp [perform_destroy, hf, hi] at hm

/-- Witness for C6: a record with an existing file whose removal fails. -/
theorem C6_witness :
    c6doc.filePath = some "media/f.bin" ∧ c6env.isfile "media/f.bin" = true :=
  (C6_destroy_deletes_record_first c6doc c6env).2.2 "media/f.bin" (by decide)
